import Mathlib

/-!
# Verification of the MindFuel customer email automation pipeline

A shallow embedding of the pipeline's core modules:

* `src/process.py` — `process_user_batch`: sends one email per user of a
  batch over a shared SMTP session, then bulk-updates `last_email_sent_at`
  for the users whose send succeeded, commits, and writes the checkpoint.
* `src/db_conn.py` — `get_last_processed_id` / `save_checkpoint` (the
  JSON checkpoint file) and `fetch_users_in_batches` (keyset pagination
  over the `users` table).
* `src/email_utils.py` — `send_email`: per-recipient retry loop with
  exponential backoff.

Side effects (SMTP sends, sleeps, SQL statements, checkpoint writes) are
made visible as explicit event traces; the database and the checkpoint
file are explicit state threaded through the functions.
-/

namespace MindFuel

/-- A row of the `users` table, with the columns the pipeline touches.
Timestamps are abstract `Nat` instants; `none` models SQL `NULL`. -/
structure DbUser where
  user_id : Nat
  first_name : String
  email_address : String
  subscription_status : String
  email_frequency : String
  last_email_sent_at : Option Nat
deriving DecidableEq, Repr

/-- The member of a batch handed to `process_user_batch` (the dictionary
built from the `SELECT user_id, first_name, email_address` row). -/
structure BUser where
  user_id : Nat
  first_name : String
  email_address : String
deriving DecidableEq, Repr

/-- The outcome, as observed by `process_user_batch`, of one call to
`send_email` for one recipient: the call returned `True`, returned
`False` after exhausting its retries, or raised an exception. -/
inductive SendResult where
  | ok
  | returnedFalse
  | raisedExn
deriving DecidableEq, Repr

/-- The mutable `stats` dictionary threaded through the run
(`records_processed`, `emails_sent`, `failed`). -/
structure Stats where
  records_processed : Nat
  emails_sent : Nat
  failed : Nat
deriving DecidableEq, Repr

/-- Observable side effects of `process_user_batch`, in program order. -/
inductive Event where
  /-- a call to `send_email` for the given `user_id`, with its outcome -/
  | send (uid : Nat) (res : SendResult)
  /-- `time.sleep(RATE_LIMIT_DELAY)` -/
  | rateSleep
  /-- `session.execute(UPDATE users SET last_email_sent_at = ...)` -/
  | dbUpdate (ids : List Nat)
  /-- `session.commit()` -/
  | commit
  /-- `session.rollback()` -/
  | rollback
  /-- `save_checkpoint(v)` -/
  | checkpointWrite (v : Nat)
deriving DecidableEq, Repr

/-- Durable state outside the process: the `users` table and the value
stored in the JSON checkpoint file (`0` when absent or reset). -/
structure WorldState where
  db : List DbUser
  checkpoint : Nat
deriving DecidableEq, Repr

/-- The per-user `for user in batch` loop of `process_user_batch`
(src/process.py lines 62-80).  For each user, in order:
`records_processed` is incremented, `send_email` is invoked; on `True`
`emails_sent` is incremented and the id is appended to `successful_ids`;
on `False` or on a raised exception `failed` is incremented and the loop
continues.  Returns the updated stats, `successful_ids`, and the trace
of send events. -/
def processLoop (sender : Nat → SendResult) :
    List BUser → Stats → Stats × List Nat × List Event
  | [], stats => (stats, [], [])
  | u :: rest, stats =>
    let stats1 : Stats :=
      { stats with records_processed := stats.records_processed + 1 }
    match sender u.user_id with
    | .ok =>
      let r := processLoop sender rest
        { stats1 with emails_sent := stats1.emails_sent + 1 }
      (r.1, u.user_id :: r.2.1, .send u.user_id .ok :: r.2.2)
    | .returnedFalse =>
      let r := processLoop sender rest
        { stats1 with failed := stats1.failed + 1 }
      (r.1, r.2.1, .send u.user_id .returnedFalse :: r.2.2)
    | .raisedExn =>
      let r := processLoop sender rest
        { stats1 with failed := stats1.failed + 1 }
      (r.1, r.2.1, .send u.user_id .raisedExn :: r.2.2)

/-- The effect of the bulk
`UPDATE users SET last_email_sent_at = CURRENT_TIMESTAMP WHERE user_id IN ids`
on the table: rows whose `user_id` is in `ids` get `last_email_sent_at`
stamped with the current instant, all other rows are untouched. -/
def markSent (now : Nat) (ids : List Nat) (db : List DbUser) : List DbUser :=
  db.map fun u =>
    if u.user_id ∈ ids then { u with last_email_sent_at := some now } else u

/-- Result of one call to `process_user_batch`: final stats, durable
state, the event trace, and whether the call re-raised an exception. -/
structure BatchOutcome where
  stats : Stats
  world : WorldState
  events : List Event
  raised : Bool
deriving DecidableEq, Repr

/-- `process_user_batch` (src/process.py).  `sender` gives the outcome of
each `send_email` call; `dbOk` says whether the bulk update + commit
succeeds (when `false`, that step raises).  After the per-user loop and
the single `time.sleep(RATE_LIMIT_DELAY)`, if `successful_ids` is
non-empty the bulk update runs and on success is committed and
`save_checkpoint(successful_ids[-1])` is called; on failure the
transaction is rolled back and the exception propagates through the
outer handler (which rolls back again) and is re-raised. -/
def process_user_batch (sender : Nat → SendResult) (dbOk : Bool) (now : Nat)
    (batch : List BUser) (stats : Stats) (w : WorldState) : BatchOutcome :=
  let r := processLoop sender batch stats
  let stats1 := r.1
  let successful_ids := r.2.1
  let evs := r.2.2 ++ [Event.rateSleep]
  if successful_ids.isEmpty then
    { stats := stats1, world := w, events := evs, raised := false }
  else if dbOk then
    { stats := stats1,
      world := { db := markSent now successful_ids w.db,
                 checkpoint := successful_ids.getLastD 0 },
      events := evs ++ [.dbUpdate successful_ids, .commit,
                        .checkpointWrite (successful_ids.getLastD 0)],
      raised := false }
  else
    { stats := stats1, world := w,
      events := evs ++ [.dbUpdate successful_ids, .rollback, .rollback],
      raised := true }

/-! ## `send_email` (src/email_utils.py): retry loop with backoff -/

/-- `MAX_RETRIES = 3` (src/email_utils.py). -/
def MAX_RETRIES : Nat := 3

/-- `RETRY_DELAY = 2` seconds (src/email_utils.py). -/
def RETRY_DELAY : Nat := 2

/-- Observable steps of one `send_email` call. -/
inductive SEvent where
  /-- the body of iteration `attempt` ran (message built, hand-off tried) -/
  | attemptAt (attempt : Nat)
  /-- `time.sleep(t)` between two attempts -/
  | backoffSleep (t : Nat)
deriving DecidableEq, Repr

/-- The `for attempt in range(1, max_retries + 1)` loop of `send_email`,
over the remaining list of attempt numbers.  `outcome a` says whether the
body of attempt `a` reaches `server.send_message` successfully (any
exception in the body is caught).  On success the function returns `True`
at once; on failure it sleeps `RETRY_DELAY * 2 ^ (attempt - 1)` seconds
when further attempts remain, and returns `False` after the last one. -/
def sendAttempts (outcome : Nat → Bool) (retryDelay : Nat) :
    List Nat → Bool × List SEvent
  | [] => (false, [])
  | a :: rest =>
    if outcome a then (true, [.attemptAt a])
    else
      match rest with
      | [] => (false, [.attemptAt a])
      | _ :: _ =>
        let r := sendAttempts outcome retryDelay rest
        (r.1, .attemptAt a :: .backoffSleep (retryDelay * 2 ^ (a - 1)) :: r.2)

/-- `send_email` (src/email_utils.py lines 82-117): runs the attempt loop
for attempts `1, …, max_retries` and returns whether the hand-off
succeeded, together with the trace of attempts and backoff sleeps. -/
def send_email (outcome : Nat → Bool) (max_retries : Nat := MAX_RETRIES) :
    Bool × List SEvent :=
  sendAttempts outcome RETRY_DELAY (List.range' 1 max_retries)

/-! ## Checkpoint store (src/db_conn.py) -/

/-- What `json.load` can yield from the checkpoint file: a JSON object
(a finite map from string keys to integer values — the only shape the
code ever writes is `{'max_id': ..., 'updated_at': ...}`), or any
non-object JSON value, on which `.get` raises `AttributeError`. -/
inductive JsonVal where
  | obj (fields : List (String × Int))
  | nonObj
deriving DecidableEq, Repr

/-- State of the checkpoint file as seen by `get_last_processed_id`:
`none` — the file does not exist (`os.path.exists` is false);
`some none` — it exists but `open`/`json.load` raises (unreadable or
malformed); `some (some j)` — it exists and parses to the value `j`. -/
def CheckpointFileState : Type := Option (Option JsonVal)

/-- Python `dict.get(key, 0)` on the parsed object's field list. -/
def dictGetD (fields : List (String × Int)) (key : String) : Int :=
  match fields.find? (fun kv => kv.1 = key) with
  | some kv => kv.2
  | none => 0

/-- `get_last_processed_id` (src/db_conn.py lines 37-53): returns the
persisted `max_id`; every failure path (missing file, exception while
opening or parsing, non-object JSON making `.get` raise) is caught and
yields `0`, and a parsed object lacking the key yields the `.get`
default `0`. -/
def get_last_processed_id : CheckpointFileState → Int
  | none => 0
  | some none => 0
  | some (some .nonObj) => 0
  | some (some (.obj fields)) => dictGetD fields "max_id"

/-! ## `fetch_users_in_batches` (src/db_conn.py): keyset pagination

The `users` table is modelled as a list of rows held in primary-key
order (`user_id` strictly increasing), so the `ORDER BY user_id ASC` of
the query returns eligible rows in list order. -/

/-- `CHUNK_SIZE = 1000` (src/db_conn.py), the default batch capacity. -/
def CHUNK_SIZE : Nat := 1000

/-- The `WHERE` clause of the pagination query: active subscription,
matching `email_frequency`, `user_id > last_id`, and
`last_email_sent_at < CURRENT_DATE OR last_email_sent_at IS NULL`. -/
def eligible (frequency : String) (today last_id : Nat) (u : DbUser) : Bool :=
  u.subscription_status = "active" && u.email_frequency = frequency &&
    decide (last_id < u.user_id) &&
    (match u.last_email_sent_at with
     | none => true
     | some t => decide (t < today))

/-- One execution of the `SELECT … ORDER BY user_id ASC LIMIT :limit`
query against the current table. -/
def queryBatch (db : List DbUser) (frequency : String)
    (today last_id limit : Nat) : List DbUser :=
  (db.filter (eligible frequency today last_id)).take limit

/-- The `while True` loop of `fetch_users_in_batches` (src/db_conn.py
lines 84-115), unrolled over `fuel` iterations, from local cursor
`last_id`.  Each round queries a batch; an empty result saves checkpoint
`0` and stops (second component `true`); otherwise the cursor moves to
the batch's last `user_id` and the batch is yielded.  `fuel` only bounds
the unrolling: `db.length + 1` rounds always suffice. -/
def fetchGo (db : List DbUser) (frequency : String) (today limit : Nat) :
    Nat → Nat → List (List DbUser) × Bool
  | 0, _ => ([], false)
  | fuel + 1, last_id =>
    let batch := queryBatch db frequency today last_id limit
    match batch with
    | [] => ([], true)
    | b :: bs =>
      let r := fetchGo db frequency today limit fuel ((b :: bs).getLastD b).user_id
      ((b :: bs) :: r.1, r.2)

/-- `fetch_users_in_batches(email_frequency, batch_size)`: reads the
checkpoint once at generator creation (`last_id = get_last_processed_id()`)
and paginates from there.  Returns the yielded batches and whether the
generator terminated (resetting the checkpoint to `0`). -/
def fetch_users_in_batches (db : List DbUser) (frequency : String)
    (today : Nat) (batch_size : Nat) (fuel : Nat) (checkpoint : Nat) :
    List (List DbUser) × Bool :=
  fetchGo db frequency today batch_size fuel checkpoint

/-- Project a queried row to the dictionary handed to
`process_user_batch`. -/
def toBUser (u : DbUser) : BUser :=
  { user_id := u.user_id, first_name := u.first_name,
    email_address := u.email_address }

/-- Result of an end-to-end run of the `for batch in
fetch_users_in_batches(...)` loop of `main.py`: the page of `user_id`s
yielded by each pagination round paired with the durable checkpoint
value right after its dispatch, plus the final world state and stats. -/
structure RunResult where
  steps : List (List Nat × Nat)
  world : WorldState
  stats : Stats
deriving DecidableEq, Repr

/-- The consumer loop of `main.py` fused with the generator body of
`fetch_users_in_batches`: each round queries a batch against the current
table; an empty batch resets the durable checkpoint to `0` and stops;
otherwise the local cursor advances and `process_user_batch` dispatches
the batch, updating table, checkpoint and stats. -/
def runGo (sender : Nat → SendResult) (dbOk : Bool)
    (frequency : String) (today now limit : Nat) :
    Nat → Nat → WorldState → Stats → RunResult
  | 0, _, w, stats => { steps := [], world := w, stats := stats }
  | fuel + 1, last_id, w, stats =>
    let batch := queryBatch w.db frequency today last_id limit
    match batch with
    | [] => { steps := [], world := { w with checkpoint := 0 }, stats := stats }
    | b :: bs =>
      let cursor := ((b :: bs).getLastD b).user_id
      let out := process_user_batch sender dbOk now
        ((b :: bs).map toBUser) stats w
      if out.raised then
        -- the re-raised exception propagates out of the consumer loop
        { steps := [((b :: bs).map (·.user_id), out.world.checkpoint)],
          world := out.world, stats := out.stats }
      else
        let rest := runGo sender dbOk frequency today now limit fuel
          cursor out.world out.stats
        { steps := ((b :: bs).map (·.user_id), out.world.checkpoint) :: rest.steps,
          world := rest.world, stats := rest.stats }

/-- An end-to-end run starting from durable state `w`: the generator
reads the checkpoint once at creation, then the fused loop runs. -/
def runPipeline (sender : Nat → SendResult) (dbOk : Bool)
    (frequency : String) (today now limit fuel : Nat)
    (w : WorldState) (stats : Stats) : RunResult :=
  runGo sender dbOk frequency today now limit fuel w.checkpoint w stats

/-! ## Derived notions used by the theorems -/

/-- The `successful_ids` list a dispatch accumulates: the `user_id`s of
the batch members whose send came back `True`, in batch order. -/
def okIds (sender : Nat → SendResult) (batch : List BUser) : List Nat :=
  (batch.filter (fun u => sender u.user_id = SendResult.ok)).map (·.user_id)

/-- The attempt number carried by a send-retry event, if any. -/
def attemptNum : SEvent → Option Nat
  | .attemptAt a => some a
  | _ => none

/-- The duration carried by a backoff-sleep event, if any. -/
def sleepSecs : SEvent → Option Nat
  | .backoffSleep t => some t
  | _ => none

/-! ## Helper lemmas -/

/-- Closed form of the per-user loop: final stats, `successful_ids`, and
the event trace, for any batch and any send outcomes. -/
theorem processLoop_spec (sender : Nat → SendResult) :
    ∀ (batch : List BUser) (stats : Stats),
    processLoop sender batch stats =
      ({ records_processed := stats.records_processed + batch.length,
         emails_sent := stats.emails_sent +
           (batch.filter (fun u => sender u.user_id = SendResult.ok)).length,
         failed := stats.failed +
           (batch.filter (fun u => ¬ sender u.user_id = SendResult.ok)).length },
       okIds sender batch,
       batch.map (fun u => Event.send u.user_id (sender u.user_id)))
  | [], stats => by simp [processLoop, okIds]
  | u :: rest, stats => by
    rcases h : sender u.user_id with _ | _ | _ <;>
      simp [processLoop, h, processLoop_spec sender rest, okIds,
        List.filter_cons, Stats.mk.injEq] <;> omega

/-- Closed form of a dispatch in which no send succeeded: stats advance,
but world (table and checkpoint) is untouched and only send events and
the single rate-limit sleep appear. -/
theorem process_user_batch_empty (sender : Nat → SendResult) (dbOk : Bool)
    (now : Nat) (batch : List BUser) (stats : Stats) (w : WorldState)
    (h : okIds sender batch = []) :
    process_user_batch sender dbOk now batch stats w =
      { stats := (processLoop sender batch stats).1, world := w,
        events := batch.map (fun u => Event.send u.user_id (sender u.user_id))
          ++ [Event.rateSleep],
        raised := false } := by
  simp [process_user_batch, processLoop_spec, h]

/-- Closed form of a dispatch with at least one successful send in which
the bulk update and commit succeed. -/
theorem process_user_batch_ok (sender : Nat → SendResult)
    (now : Nat) (batch : List BUser) (stats : Stats) (w : WorldState)
    (h : ¬ okIds sender batch = []) :
    process_user_batch sender true now batch stats w =
      { stats := (processLoop sender batch stats).1,
        world := { db := markSent now (okIds sender batch) w.db,
                   checkpoint := (okIds sender batch).getLastD 0 },
        events := batch.map (fun u => Event.send u.user_id (sender u.user_id))
          ++ [Event.rateSleep, Event.dbUpdate (okIds sender batch), Event.commit,
              Event.checkpointWrite ((okIds sender batch).getLastD 0)],
        raised := false } := by
  simp [process_user_batch, processLoop_spec, h]

/-- Closed form of a dispatch with at least one successful send in which
the bulk update or its commit raises: rolled back, re-raised, world
untouched. -/
theorem process_user_batch_dbFail (sender : Nat → SendResult)
    (now : Nat) (batch : List BUser) (stats : Stats) (w : WorldState)
    (h : ¬ okIds sender batch = []) :
    process_user_batch sender false now batch stats w =
      { stats := (processLoop sender batch stats).1, world := w,
        events := batch.map (fun u => Event.send u.user_id (sender u.user_id))
          ++ [Event.rateSleep, Event.dbUpdate (okIds sender batch), Event.rollback,
              Event.rollback],
        raised := true } := by
  simp [process_user_batch, processLoop_spec, h]

/-- In a strictly increasing `Nat` list the last element is the maximum:
membership form, by induction over the list. -/
theorem getLastD_is_max {as : List Nat} {a : Nat} :
    (a :: as).Pairwise (· < ·) →
      ∀ x ∈ a :: as, x ≤ (a :: as).getLastD 0 := by
  induction as generalizing a with
  | nil => intro _ x hx; simp at hx; simp [hx]
  | cons b bs ih =>
    intro hp x hx
    have hab : a < b := (List.pairwise_cons.mp hp).1 b (by simp)
    have htail : (b :: bs).Pairwise (· < ·) := (List.pairwise_cons.mp hp).2
    have hlast : (b :: bs).getLastD 0 = (a :: b :: bs).getLastD 0 := by
      simp [List.getLastD_cons]
    rcases List.mem_cons.mp hx with rfl | hx
    · have hb := ih htail b (by simp)
      rw [← hlast]
      exact le_of_lt (lt_of_lt_of_le hab hb)
    · rw [← hlast]
      exact ih htail x hx

/-- The last element of a non-empty list is one of its elements. -/
theorem getLastD_mem {α : Type} {l : List α} (d : α) (h : l ≠ []) :
    l.getLastD d ∈ l := by
  cases l with
  | nil => exact absurd rfl h
  | cons a as => exact List.mem_of_mem_getLast? rfl

/-- `successful_ids` inherits the batch's strictly-increasing order. -/
theorem okIds_sorted (sender : Nat → SendResult) {batch : List BUser}
    (h : batch.Pairwise (fun a b => a.user_id < b.user_id)) :
    (okIds sender batch).Pairwise (· < ·) := by
  unfold okIds
  exact List.pairwise_map.mpr
    (h.sublist (List.filter_sublist batch))

/-! ## Concrete fixtures for scenarios and witnesses -/

/-- A fresh stats dictionary, as initialised in `main.py`. -/
def stats0 : Stats := { records_processed := 0, emails_sent := 0, failed := 0 }

/-- Empty world: no users, no checkpoint. -/
def w0 : WorldState := { db := [], checkpoint := 0 }

/-- A world whose durable checkpoint currently holds `7`. -/
def w7 : WorldState := { db := [], checkpoint := 7 }

/-- The spec scenario's batch `[1, 2, 3]`. -/
def scenarioBatch : List BUser :=
  [{ user_id := 1, first_name := "Amy", email_address := "amy@example.com" },
   { user_id := 2, first_name := "Ben", email_address := "ben@example.com" },
   { user_id := 3, first_name := "Cal", email_address := "cal@example.com" }]

/-- The spec scenario's outcomes: the send to user `2` fails all retries
(`send_email` returns `False`), sends to `1` and `3` succeed. -/
def scenarioSender : Nat → SendResult :=
  fun uid => if uid = 2 then .returnedFalse else .ok

/-- Every send succeeds. -/
def allOkSender : Nat → SendResult := fun _ => .ok

/-- Every send fails (returns `False` after exhausting retries). -/
def allFailSender : Nat → SendResult := fun _ => .returnedFalse

/-- A two-recipient batch. -/
def pairBatch : List BUser :=
  [{ user_id := 1, first_name := "Amy", email_address := "amy@example.com" },
   { user_id := 2, first_name := "Ben", email_address := "ben@example.com" }]

/-! ## Claims about `process_user_batch` -/

/-- C1: for every dispatch of a batch (strictly increasing by `user_id`,
as all batches produced by the paginator are) whose successful-id set is
non-empty and whose bulk update succeeds, the trace contains exactly one
bulk update, stamping `last_email_sent_at` for exactly the successful
ids, followed by the commit and then the checkpoint write; the value
checkpointed is the highest successful `user_id`.  In particular, for
batch `[1,2,3]` with the send to user `2` failing all retries, the
checkpoint advances to `3`, `stats.failed` rises by `1` and
`stats.emails_sent` by `2`. -/
theorem c1_bulk_update_commit_checkpoint_max :
    (∀ (sender : Nat → SendResult) (now : Nat) (batch : List BUser)
       (stats : Stats) (w : WorldState),
      batch.Pairwise (fun a b => a.user_id < b.user_id) →
      okIds sender batch ≠ [] →
      (process_user_batch sender true now batch stats w).events
          = batch.map (fun u => Event.send u.user_id (sender u.user_id))
            ++ [Event.rateSleep, Event.dbUpdate (okIds sender batch), Event.commit,
                Event.checkpointWrite ((okIds sender batch).getLastD 0)] ∧
      (process_user_batch sender true now batch stats w).world.db
          = markSent now (okIds sender batch) w.db ∧
      (process_user_batch sender true now batch stats w).world.checkpoint
          = (okIds sender batch).getLastD 0 ∧
      (okIds sender batch).getLastD 0 ∈ okIds sender batch ∧
      (∀ x ∈ okIds sender batch, x ≤ (okIds sender batch).getLastD 0) ∧
      (process_user_batch sender true now batch stats w).raised = false) ∧
    (process_user_batch scenarioSender true 10 scenarioBatch stats0 w0).world.checkpoint
        = 3 ∧
    (process_user_batch scenarioSender true 10 scenarioBatch stats0 w0).stats.failed
        = 1 ∧
    (process_user_batch scenarioSender true 10 scenarioBatch stats0 w0).stats.emails_sent
        = 2 := by
  refine ⟨?_, by decide, by decide, by decide⟩
  intro sender now batch stats w hsort hne
  rw [process_user_batch_ok sender now batch stats w hne]
  refine ⟨rfl, rfl, rfl, getLastD_mem 0 hne, ?_, rfl⟩
  have hs := okIds_sorted sender hsort
  cases h : okIds sender batch with
  | nil => exact absurd h hne
  | cons a as =>
    intro x hx
    exact getLastD_is_max (h ▸ hs) x hx

/-- Witness for C1 at the spec's concrete scenario: batch `[1,2,3]`,
send to user `2` fails, `1` and `3` succeed — checkpoint advances to the
maximum `3` of the successful set `{1, 3}`. -/
theorem c1_bulk_update_commit_checkpoint_max_witness :
    (process_user_batch scenarioSender true 10 scenarioBatch stats0 w0).world.checkpoint
      = 3 ∧
    (okIds scenarioSender scenarioBatch).getLastD 0 ∈ okIds scenarioSender scenarioBatch := by
  have h := c1_bulk_update_commit_checkpoint_max.1 scenarioSender 10 scenarioBatch
    stats0 w0 (by decide) (by decide)
  exact ⟨h.2.2.1.trans (by decide), h.2.2.2.1⟩

/-- C2: for every dispatch in which the bulk update or its commit raises,
the transaction is rolled back, the error is re-raised, and the durable
world — checkpoint value and table — is exactly what it was before the
batch; in particular no checkpoint write event occurs. -/
theorem c2_db_failure_rolls_back_and_reraises (sender : Nat → SendResult)
    (now : Nat) (batch : List BUser) (stats : Stats) (w : WorldState)
    (hne : okIds sender batch ≠ []) :
    (process_user_batch sender false now batch stats w).raised = true ∧
    (process_user_batch sender false now batch stats w).world = w ∧
    Event.rollback ∈ (process_user_batch sender false now batch stats w).events ∧
    ∀ v, Event.checkpointWrite v ∉
      (process_user_batch sender false now batch stats w).events := by
  rw [process_user_batch_dbFail sender now batch stats w hne]
  refine ⟨rfl, rfl, by simp, ?_⟩
  intro v hv
  simp only [List.mem_append, List.mem_map] at hv
  rcases hv with ⟨u, _, hu⟩ | hv
  · exact Event.noConfusion hu
  · simp at hv

/-- Witness for C2: two successful sends, failing bulk update — the run
raises, and a pre-existing checkpoint of `7` survives untouched. -/
theorem c2_db_failure_rolls_back_and_reraises_witness :
    (process_user_batch allOkSender false 10 pairBatch stats0 w7).raised = true ∧
    (process_user_batch allOkSender false 10 pairBatch stats0 w7).world = w7 := by
  have h := c2_db_failure_rolls_back_and_reraises allOkSender 10 pairBatch stats0 w7
    (by decide)
  exact ⟨h.1, h.2.1⟩

/-- C3: for every dispatch in which every send fails, no bulk update, no
commit and no checkpoint write occur, nothing is raised, and the durable
world — table and checkpoint — is unchanged. -/
theorem c3_all_sends_fail_leaves_state_unchanged (sender : Nat → SendResult)
    (dbOk : Bool) (now : Nat) (batch : List BUser) (stats : Stats) (w : WorldState)
    (hfail : ∀ u ∈ batch, ¬ sender u.user_id = SendResult.ok) :
    (process_user_batch sender dbOk now batch stats w).world = w ∧
    (process_user_batch sender dbOk now batch stats w).raised = false ∧
    (∀ ids, Event.dbUpdate ids ∉
      (process_user_batch sender dbOk now batch stats w).events) ∧
    Event.commit ∉ (process_user_batch sender dbOk now batch stats w).events ∧
    ∀ v, Event.checkpointWrite v ∉
      (process_user_batch sender dbOk now batch stats w).events := by
  have hok : okIds sender batch = [] := by
    unfold okIds
    rw [List.filter_eq_nil_iff.mpr]
    · rfl
    · intro u hu
      simpa using hfail u hu
  rw [process_user_batch_empty sender dbOk now batch stats w hok]
  refine ⟨rfl, rfl, ?_, ?_, ?_⟩
  · intro ids hid
    simp only [List.mem_append, List.mem_map] at hid
    rcases hid with ⟨u, _, hu⟩ | hid
    · exact Event.noConfusion hu
    · simp at hid
  · intro hc
    simp only [List.mem_append, List.mem_map] at hc
    rcases hc with ⟨u, _, hu⟩ | hc
    · exact Event.noConfusion hu
    · simp at hc
  · intro v hv
    simp only [List.mem_append, List.mem_map] at hv
    rcases hv with ⟨u, _, hu⟩ | hv
    · exact Event.noConfusion hu
    · simp at hv

/-- Witness for C3: both sends of a two-user batch fail; the world (with
checkpoint `7`) is returned unchanged and nothing raises. -/
theorem c3_all_sends_fail_leaves_state_unchanged_witness :
    (process_user_batch allFailSender true 10 pairBatch stats0 w7).world = w7 ∧
    (process_user_batch allFailSender true 10 pairBatch stats0 w7).raised = false := by
  have h := c3_all_sends_fail_leaves_state_unchanged allFailSender true 10 pairBatch
    stats0 w7 (by decide)
  exact ⟨h.1, h.2.1⟩

/-- C5 (claim refuted by the code): `process.py` executes
`time.sleep(RATE_LIMIT_DELAY)` once per batch, after the `for` loop —
in a two-recipient batch the two send events are adjacent in the trace
and the single rate-limit sleep comes after the last send, not between
the sends as the constant's own `seconds between emails` comment and the
spec describe. -/
theorem c5_rate_limit_sleep_after_loop_not_between_sends :
    (process_user_batch allOkSender true 10 pairBatch stats0 w0).events
      = [Event.send 1 .ok, Event.send 2 .ok, Event.rateSleep,
         Event.dbUpdate [1, 2], Event.commit, Event.checkpointWrite 2] := by
  decide

/-- C7: recipients are processed in batch order; a send returning `True`
increments `emails_sent` and appends the `user_id` to the successful
list, a send returning `False` or raising increments `failed`; every
recipient of the batch is attempted exactly once, in order — no single
failure aborts the loop. -/
theorem c7_per_recipient_failure_isolation (sender : Nat → SendResult)
    (batch : List BUser) (stats : Stats) :
    (processLoop sender batch stats).2.2
        = batch.map (fun u => Event.send u.user_id (sender u.user_id)) ∧
    (processLoop sender batch stats).2.1 = okIds sender batch ∧
    (processLoop sender batch stats).1.emails_sent
        = stats.emails_sent + (okIds sender batch).length ∧
    (processLoop sender batch stats).1.failed
        = stats.failed
          + (batch.filter (fun u => ¬ sender u.user_id = SendResult.ok)).length := by
  rw [processLoop_spec]
  exact ⟨rfl, rfl, by simp [okIds], rfl⟩

/-- C10: a completed dispatch raises `records_processed` by exactly the
batch length, and that increase is exactly the increase of `emails_sent`
plus the increase of `failed`: each recipient lands in exactly one
outcome counter. -/
theorem c10_stats_conservation (sender : Nat → SendResult) (dbOk : Bool)
    (now : Nat) (batch : List BUser) (stats : Stats) (w : WorldState) :
    (process_user_batch sender dbOk now batch stats w).stats.records_processed
        = stats.records_processed + batch.length ∧
    (process_user_batch sender dbOk now batch stats w).stats.emails_sent
        + (process_user_batch sender dbOk now batch stats w).stats.failed
      = stats.emails_sent + stats.failed + batch.length := by
  have hstats : (process_user_batch sender dbOk now batch stats w).stats
      = (processLoop sender batch stats).1 := by
    simp only [process_user_batch]
    split
    · rfl
    · split <;> rfl
  rw [hstats, processLoop_spec]
  refine ⟨rfl, ?_⟩
  have hlen := List.length_eq_length_filter_add
    (l := batch) (fun u => decide (sender u.user_id = SendResult.ok))
  simp only [decide_not] at *
  omega

/-! ## Claims about `send_email` -/

/-- One failing step of the attempt loop when further attempts remain:
the attempt event and its backoff sleep precede the recursive outcome. -/
theorem sendAttempts_cons_cons (outcome : Nat → Bool) (d a b : Nat)
    (rest : List Nat) (ha : outcome a = false) :
    sendAttempts outcome d (a :: b :: rest)
      = ((sendAttempts outcome d (b :: rest)).1,
         .attemptAt a :: .backoffSleep (d * 2 ^ (a - 1))
           :: (sendAttempts outcome d (b :: rest)).2) := by
  rw [sendAttempts]
  simp [ha]

/-- When every remaining attempt fails, the loop returns `false`, runs
every attempt in order, and sleeps the backoff duration after every
attempt but the last. -/
theorem sendAttempts_all_fail (outcome : Nat → Bool) (d : Nat) :
    ∀ l : List Nat, (∀ a ∈ l, outcome a = false) →
      (sendAttempts outcome d l).1 = false ∧
      (sendAttempts outcome d l).2.filterMap attemptNum = l ∧
      (sendAttempts outcome d l).2.filterMap sleepSecs
        = l.dropLast.map (fun a => d * 2 ^ (a - 1))
  | [], _ => by simp [sendAttempts]
  | [a], h => by
    simp [sendAttempts, h a (by simp), attemptNum, sleepSecs]
  | a :: b :: rest, h => by
    have ih := sendAttempts_all_fail outcome d (b :: rest)
      (fun x hx => h x (List.mem_cons_of_mem a hx))
    rw [sendAttempts_cons_cons outcome d a b rest (h a (by simp))]
    simp [attemptNum, sleepSecs, ih.1, ih.2.1, ih.2.2]

/-- The loop reports `true` only if one of its attempts succeeded. -/
theorem sendAttempts_true_of_success (outcome : Nat → Bool) (d : Nat) :
    ∀ l : List Nat, (sendAttempts outcome d l).1 = true →
      ∃ a ∈ l, outcome a = true
  | [], h => by simp [sendAttempts] at h
  | a :: rest, h => by
    by_cases ha : outcome a
    · exact ⟨a, by simp, ha⟩
    · cases rest with
      | nil => simp [sendAttempts, ha] at h
      | cons b bs =>
        simp only [sendAttempts, ha, Bool.false_eq_true, if_false] at h
        obtain ⟨x, hx, hox⟩ := sendAttempts_true_of_success outcome d (b :: bs) h
        exact ⟨x, List.mem_cons_of_mem a hx, hox⟩

/-- Dropping the last attempt number from `1, …, m` leaves `1, …, m-1`. -/
theorem range'_dropLast (m : Nat) :
    (List.range' 1 m).dropLast = List.range' 1 (m - 1) := by
  cases m with
  | zero => simp
  | succ k => rw [List.range'_1_concat]; simp

/-- C8: whenever every attempt's hand-off fails, `send_email` performs
exactly `max_retries` attempts (numbers `1, …, max_retries`, in order),
sleeps `RETRY_DELAY * 2 ^ (attempt - 1)` seconds after every failed
attempt except the last, and returns `false` (the embedding is a total
function: the caught exceptions never escape); with the module constants
`RETRY_DELAY = 2`, `max_retries = 3` the full trace is attempt 1, a 2 s
sleep, attempt 2, a 4 s sleep, attempt 3.  It returns `true` only when
some attempt in `1, …, max_retries` succeeds. -/
theorem c8_retry_backoff_and_false_on_exhaustion :
    (∀ (outcome : Nat → Bool) (m : Nat), (∀ a, outcome a = false) →
      (send_email outcome m).1 = false ∧
      (send_email outcome m).2.filterMap attemptNum = List.range' 1 m ∧
      (send_email outcome m).2.filterMap sleepSecs
        = (List.range' 1 (m - 1)).map (fun a => RETRY_DELAY * 2 ^ (a - 1))) ∧
    (∀ outcome : Nat → Bool, (∀ a, outcome a = false) →
      (send_email outcome).2
        = [.attemptAt 1, .backoffSleep 2, .attemptAt 2, .backoffSleep 4,
           .attemptAt 3]) ∧
    (∀ (outcome : Nat → Bool) (m : Nat), (send_email outcome m).1 = true →
      ∃ a ∈ List.range' 1 m, outcome a = true) := by
  refine ⟨?_, ?_, ?_⟩
  · intro outcome m h
    have := sendAttempts_all_fail outcome RETRY_DELAY (List.range' 1 m)
      (fun a _ => h a)
    exact ⟨this.1, this.2.1, by rw [send_email, this.2.2, range'_dropLast]⟩
  · intro outcome h
    simp [send_email, MAX_RETRIES, RETRY_DELAY, List.range', sendAttempts,
      h 1, h 2, h 3]
  · intro outcome m h
    exact sendAttempts_true_of_success outcome RETRY_DELAY (List.range' 1 m) h

/-- Witness for C8 at `outcome ≡ false` and the module constants: three
attempts, `false` result, backoff sleeps of 2 s and 4 s in between. -/
theorem c8_retry_backoff_and_false_on_exhaustion_witness :
    (send_email (fun _ => false)).1 = false ∧
    (send_email (fun _ => false)).2
      = [.attemptAt 1, .backoffSleep 2, .attemptAt 2, .backoffSleep 4,
         .attemptAt 3] :=
  ⟨(c8_retry_backoff_and_false_on_exhaustion.1 (fun _ => false) MAX_RETRIES
      (fun _ => rfl)).1,
   c8_retry_backoff_and_false_on_exhaustion.2.1 (fun _ => false) (fun _ => rfl)⟩

/-! ## Claim about the checkpoint reader -/

/-- C9: `get_last_processed_id` is total over every checkpoint-file
state (the embedding returns a plain integer because each exception path
in the code is caught and returns `0`): a missing file, an unreadable or
unparsable file, non-object JSON (on which `.get` raises and is caught),
and a parsed object lacking the `max_id` key all yield `0`, while a
parsed object with the key yields its persisted value. -/
theorem c9_checkpoint_read_fails_open :
    get_last_processed_id none = 0 ∧
    get_last_processed_id (some none) = 0 ∧
    get_last_processed_id (some (some .nonObj)) = 0 ∧
    (∀ fields : List (String × Int),
      fields.find? (fun kv => kv.1 = "max_id") = none →
        get_last_processed_id (some (some (.obj fields))) = 0) ∧
    (∀ (fields : List (String × Int)) (kv : String × Int),
      fields.find? (fun kv => kv.1 = "max_id") = some kv →
        get_last_processed_id (some (some (.obj fields))) = kv.2) := by
  refine ⟨rfl, rfl, rfl, ?_, ?_⟩
  · intro fields h
    simp [get_last_processed_id, dictGetD, h]
  · intro fields kv h
    simp [get_last_processed_id, dictGetD, h]

/-- Witness for C9: the exact shape `save_checkpoint` writes —
`{'max_id': 42, 'updated_at': …}` — reads back as `42`, and a file whose
object lacks the key reads as `0`. -/
theorem c9_checkpoint_read_fails_open_witness :
    get_last_processed_id
        (some (some (.obj [("max_id", 42), ("updated_at", 99)]))) = 42 ∧
    get_last_processed_id (some (some (.obj [("updated_at", 99)]))) = 0 :=
  ⟨c9_checkpoint_read_fails_open.2.2.2.2 [("max_id", 42), ("updated_at", 99)]
      ("max_id", 42) (by decide),
   c9_checkpoint_read_fails_open.2.2.2.1 [("updated_at", 99)] (by decide)⟩

/-! ## Claims about the paginator -/

/-- Pagination invariant, by induction on the unrolling depth: from any
cursor, every yielded batch has at most `N` rows, is strictly increasing
by `user_id`, and contains only `user_id`s above the cursor. -/
theorem fetchGo_batches (db : List DbUser) (frequency : String) (today N : Nat)
    (hdb : db.Pairwise (fun a b => a.user_id < b.user_id)) :
    ∀ (fuel last_id : Nat),
      ∀ b ∈ (fetchGo db frequency today N fuel last_id).1,
        b.length ≤ N ∧ b.Pairwise (fun a b => a.user_id < b.user_id) ∧
        ∀ u ∈ b, last_id < u.user_id := by
  intro fuel
  induction fuel with
  | zero => intro last_id b hb; simp [fetchGo] at hb
  | succ n ih =>
    intro last_id b hb
    have hmemq : ∀ u ∈ queryBatch db frequency today last_id N,
        last_id < u.user_id := by
      intro u hu
      have hel := (List.mem_filter.mp (List.mem_of_mem_take hu)).2
      simp only [eligible, Bool.and_eq_true, decide_eq_true_eq] at hel
      exact hel.1.2
    have hlenq : (queryBatch db frequency today last_id N).length ≤ N :=
      List.length_take_le N _
    have hpairq : (queryBatch db frequency today last_id N).Pairwise
        (fun a b => a.user_id < b.user_id) :=
      hdb.sublist ((List.take_sublist N _).trans (List.filter_sublist db))
    rw [fetchGo] at hb
    cases hq : queryBatch db frequency today last_id N with
    | nil => rw [hq] at hb; simp at hb
    | cons x xs =>
      rw [hq] at hb
      simp only [List.mem_cons] at hb
      rcases hb with rfl | hb
      · exact ⟨hq ▸ hlenq, hq ▸ hpairq, fun u hu => hmemq u (hq ▸ hu)⟩
      · have hcursor : last_id < ((x :: xs).getLastD x).user_id :=
          hmemq _ (by rw [hq]; exact getLastD_mem x (by simp))
        obtain ⟨h1, h2, h3⟩ := ih (((x :: xs).getLastD x).user_id) b hb
        exact ⟨h1, h2, fun u hu => lt_trans hcursor (h3 u hu)⟩

/-- C6: for every batch capacity `N`, table (held in primary-key order),
unrolling depth and starting checkpoint, every batch the paginator
yields has length at most `N`, is strictly increasing by `user_id`, and
contains only `user_id`s strictly greater than the checkpoint value read
when pagination started — so resumption never re-yields a user at or
below the last durably checkpointed id. -/
theorem c6_pagination_bounds_order_and_resume (db : List DbUser)
    (frequency : String) (today N fuel checkpoint : Nat)
    (hdb : db.Pairwise (fun a b => a.user_id < b.user_id)) :
    ∀ b ∈ (fetch_users_in_batches db frequency today N fuel checkpoint).1,
      b.length ≤ N ∧ b.Pairwise (fun a b => a.user_id < b.user_id) ∧
      ∀ u ∈ b, checkpoint < u.user_id :=
  fetchGo_batches db frequency today N hdb fuel checkpoint

/-- Three active daily subscribers, ids `1`, `2`, `3`, none emailed yet. -/
def row1 : DbUser :=
  { user_id := 1, first_name := "Amy", email_address := "amy@example.com",
    subscription_status := "active", email_frequency := "daily",
    last_email_sent_at := none }

/-- Second fixture row (see `row1`). -/
def row2 : DbUser :=
  { user_id := 2, first_name := "Ben", email_address := "ben@example.com",
    subscription_status := "active", email_frequency := "daily",
    last_email_sent_at := none }

/-- Third fixture row (see `row1`). -/
def row3 : DbUser :=
  { user_id := 3, first_name := "Cal", email_address := "cal@example.com",
    subscription_status := "active", email_frequency := "daily",
    last_email_sent_at := none }

/-- The fixture table for the end-to-end scenario. -/
def db3 : List DbUser := [row1, row2, row3]

/-- Witness for C6: with capacity `2` and checkpoint `0` over the
three-user table, the first yielded page is `[row1, row2]` and satisfies
all three invariants. -/
theorem c6_pagination_bounds_order_and_resume_witness :
    [row1, row2].length ≤ 2 ∧
    [row1, row2].Pairwise (fun a b => a.user_id < b.user_id) ∧
    ∀ u ∈ [row1, row2], 0 < u.user_id :=
  c6_pagination_bounds_order_and_resume db3 "daily" 10 2 3 0 (by decide)
    [row1, row2] (by decide)

/-- C4: end-to-end over paginator plus dispatcher, with checkpoint `0`,
three eligible users `1, 2, 3` and batch capacity `2`: the generator's
pages are `[1,2]` then `[3]`; after the first dispatch (both sends
succeed) the checkpoint is `2`, after the second it is `3`; the third
query returns no rows, the generator terminates and resets the durable
checkpoint to `0`.  All three rows end up stamped with today's send. -/
theorem c4_end_to_end_three_users_capacity_two :
    runPipeline allOkSender true "daily" 10 10 2 3
        { db := db3, checkpoint := 0 } stats0
      = { steps := [([1, 2], 2), ([3], 3)],
          world := { db := [{ row1 with last_email_sent_at := some 10 },
                            { row2 with last_email_sent_at := some 10 },
                            { row3 with last_email_sent_at := some 10 }],
                     checkpoint := 0 },
          stats := { records_processed := 3, emails_sent := 3, failed := 0 } } ∧
    fetch_users_in_batches db3 "daily" 10 2 3 0 = ([[row1, row2], [row3]], true) := by
  decide

end MindFuel
